import Mathlib

/-!
Shallow embedding of `src/src/peft/tuners/lora.py` (the CL-LoRA adapter
injection engine and LoRA layers), together with theorems checking the
natural-language specification against it.

Modelling conventions:
* Tensors are rational matrices carried with their shape (`PMat`): an
  entry function `ℕ → ℕ → ℚ` plus explicit `rows`/`cols`.  All the matrix
  arithmetic the source performs (matmul, transpose, scalar multiply,
  in-place add/subtract) is defined over these.  Rationals stand for exact
  arithmetic; the source's dtype round-tripping is the identity here.
* Python dicts keyed by adapter name become `String → Option α`
  (`Dict α`).  A dictionary read the source performs only under a
  membership guard is modelled with a default (`dget`); initialization
  (`_initialize_adapter`, `update_layer_embedding`) always keys the
  per-adapter dicts together, so the default is never exercised from the
  call sites embedded here.
* Randomized initializations (`nn.Linear` fresh weights,
  `nn.init.kaiming_uniform_`, `nn.init.normal_`) and the stochastic
  `nn.Dropout` transform are modelled as explicitly passed samples
  (`Draws`), so every definition stays a pure function of its inputs.
* Python exceptions become `Except` results.  Engine-level operations
  that mutate state before they can raise return
  `Except (PyErr × State) State`, the error carrying the state at the
  moment of the raise, so that mutate-then-raise behaviour is provable.
-/

namespace Lora

/-- Dense vectors: index → rational entry. -/
abbrev Vec := ℕ → ℚ

/-- A tensor with explicit shape: `entry i j` is meaningful for
`i < rows`, `j < cols`; matrix products sum over the stated bound. -/
structure PMat where
  rows : ℕ
  cols : ℕ
  entry : ℕ → ℕ → ℚ

/-- The all-zero matrix of a given shape (`torch.zeros` / `new_zeros`). -/
def PMat.zeroM (r c : ℕ) : PMat := ⟨r, c, fun _ _ => 0⟩

/-- `weight.T`. -/
def PMat.transposeM (M : PMat) : PMat := ⟨M.cols, M.rows, fun i j => M.entry j i⟩

/-- Matrix product `A @ B`, summing over `A`'s column count. -/
def PMat.matmul (A B : PMat) : PMat :=
  ⟨A.rows, B.cols, fun i j => ∑ t in Finset.range A.cols, A.entry i t * B.entry t j⟩

/-- Scalar multiple `c * M`. -/
def PMat.smulM (c : ℚ) (M : PMat) : PMat := ⟨M.rows, M.cols, fun i j => c * M.entry i j⟩

/-- Entrywise sum (`weight.data += delta` keeps the left operand's shape). -/
def PMat.addM (A B : PMat) : PMat := ⟨A.rows, A.cols, fun i j => A.entry i j + B.entry i j⟩

/-- Entrywise difference (`weight.data -= delta`). -/
def PMat.subM (A B : PMat) : PMat := ⟨A.rows, A.cols, fun i j => A.entry i j - B.entry i j⟩

/-- Matrix–vector product `M @ v` (an `nn.Linear` module without bias
applied to an input), summing over `M`'s column count. -/
def PMat.mv (M : PMat) (v : Vec) : Vec :=
  fun i => ∑ t in Finset.range M.cols, M.entry i t * v t

/-- Vector–matrix product `v @ M`, summing over `M`'s row count
(used for `after_A @ lora_embedding_B.T` in `Embedding.forward`). -/
def PMat.vm (v : Vec) (M : PMat) : Vec :=
  fun j => ∑ t in Finset.range M.rows, v t * M.entry t j

/-- Pointwise vector sum. -/
def vecAdd (a b : Vec) : Vec := fun i => a i + b i

/-- Pointwise scalar multiple of a vector. -/
def vecSmul (c : ℚ) (v : Vec) : Vec := fun i => c * v i

/-- Modelled from the spec: the `transpose` helper lives in the utils
collaborator (`..utils.transpose`), which is not under `src/`; the spec
describes it as `transpose_if_needed(·, fan_in_fan_out)`: the transpose
when the flag is set, the argument unchanged otherwise. -/
def transpose (M : PMat) (fan_in_fan_out : Bool) : PMat :=
  if fan_in_fan_out then M.transposeM else M

/-- The Python exceptions the embedded code can raise. -/
inductive PyErr
  | typeError (msg : String)
  | zeroDivisionError
  | valueError (msg : String)
  | notImplementedError
  | keyError (key : String)
  | unboundLocalError
  deriving DecidableEq

/-- String-keyed dictionaries (`self.r`, `self.lora_A`, …). -/
abbrev Dict (α : Type) := String → Option α

/-- `d[k] = v`. -/
def dset {α : Type} (d : Dict α) (k : String) (v : α) : Dict α :=
  fun s => if s = k then some v else d s

/-- Guarded dictionary read: every embedded call site reads a key only
when initialization has put it there (see the module docstring), so the
default is never exercised. -/
def dget {α : Type} (d : Dict α) (k : String) (v : α) : α := (d k).getD v

/-- The empty dictionary. -/
def demp {α : Type} : Dict α := fun _ => none

/-- `lora_alpha / r` (line 748): Python raises ZeroDivisionError when the
rank is zero. -/
def pyDiv (a b : ℚ) : Except PyErr ℚ :=
  if b = 0 then Except.error PyErr.zeroDivisionError else Except.ok (a / b)

/-- Samples for the randomized initializations and the dropout transform
(see module docstring). -/
structure Draws where
  loranewA : ℕ → ℕ → ℚ
  loranewB : ℕ → ℕ → ℚ
  loraA : ℕ → ℕ → ℚ
  loraB : ℕ → ℕ → ℚ
  kaimingA : ℕ → ℕ → ℚ
  normalB : ℕ → ℕ → ℚ
  dropout : Vec → Vec

/-- `class Linear(nn.Linear, LoraLayer)` (lines 844 ff.): the base weight
and bias from `nn.Linear`, plus the `LoraLayer.__init__` state
(lines 721-742).  A dense layer's `lora_embedding_A/B` dicts stay empty,
so they are omitted here and the embedding branch of
`reset_lora_parameters` is a no-op for this type. -/
structure Linear where
  in_features : ℕ
  out_features : ℕ
  weight : PMat
  bias : Option Vec
  fan_in_fan_out : Bool
  r : Dict ℕ
  lora_alpha : Dict ℚ
  scaling : Dict ℚ
  lora_dropout : Dict (Vec → Vec)
  lora_A : Dict PMat
  lora_B : Dict PMat
  loranew_A : Dict PMat
  loranew_B : Dict PMat
  merged : Bool
  disable_adapters : Bool
  active_adapter : String

/-- `LoraLayer.reset_lora_parameters` (lines 825-841), dense part: zero
`lora_A` and `lora_B` when the adapter is keyed there; redraw `loranew_A`
from the kaiming-uniform distribution (the given sample) and zero
`loranew_B` when keyed there.  The `lora_embedding_A` branch never fires
on a dense layer (those dicts stay empty). -/
def Linear.reset_lora_parameters (l : Linear) (adapter_name : String) (draws : Draws) :
    Linear :=
  let l1 :=
    match l.lora_A adapter_name, l.lora_B adapter_name with
    | some A, some B =>
        { l with
          lora_A := dset l.lora_A adapter_name (PMat.zeroM A.rows A.cols)
          lora_B := dset l.lora_B adapter_name (PMat.zeroM B.rows B.cols) }
    | _, _ => l
  match l1.loranew_A adapter_name, l1.loranew_B adapter_name with
  | some An, some Bn =>
      { l1 with
        loranew_A := dset l1.loranew_A adapter_name ⟨An.rows, An.cols, draws.kaimingA⟩
        loranew_B := dset l1.loranew_B adapter_name (PMat.zeroM Bn.rows Bn.cols) }
  | _, _ => l1

/-- `LoraLayer._initialize_adapter` (lines 744-762): records the
hyper-parameters, computes `scaling = lora_alpha / r` (which raises
ZeroDivisionError when `r = 0`, before the `r > 0` guard below), installs
the dropout transform, creates the four factor matrices when `r > 0`
(`loranew_A/B` of inner dimension `r`, `lora_A/B` of inner dimension
`r_sum`, each with `nn.Linear`'s fresh random content), and finally
resets them when `init_lora_weights` is set. -/
def Linear.initialize_adapter (l : Linear) (adapter_name : String) (r : ℕ)
    (lora_alpha lora_dropout : ℚ) (r_sum : ℕ) (init_lora_weights : Bool)
    (draws : Draws) : Except PyErr Linear :=
  match pyDiv lora_alpha (r : ℚ) with
  | Except.error e => Except.error e
  | Except.ok s =>
    let l1 : Linear :=
      { l with
        r := dset l.r adapter_name r
        lora_alpha := dset l.lora_alpha adapter_name lora_alpha
        scaling := dset l.scaling adapter_name s
        lora_dropout :=
          dset l.lora_dropout adapter_name
            (if 0 < lora_dropout then draws.dropout else id) }
    let l2 : Linear :=
      if 0 < r then
        { l1 with
          loranew_A := dset l1.loranew_A adapter_name ⟨r, l.in_features, draws.loranewA⟩
          loranew_B := dset l1.loranew_B adapter_name ⟨l.out_features, r, draws.loranewB⟩
          lora_A := dset l1.lora_A adapter_name ⟨r_sum, l.in_features, draws.loraA⟩
          lora_B := dset l1.lora_B adapter_name ⟨l.out_features, r_sum, draws.loraB⟩ }
      else l1
    Except.ok (if init_lora_weights then l2.reset_lora_parameters adapter_name draws else l2)

/-- `LoraLayer.update_layer` (lines 764-784): when `use_baseline_lora` is
set and `"baseline_lora"` is already keyed in `lora_A`, only refresh that
adapter's hyper-parameters and dropout (the division `lora_alpha / r` is
performed here too); otherwise fall through to `_initialize_adapter`.
The trailing `self.to(self.weight.device)` is a device move — a no-op in
this embedding. -/
def Linear.update_layer (l : Linear) (adapter_name : String) (r : ℕ)
    (lora_alpha lora_dropout : ℚ) (init_lora_weights : Bool) (r_sum : ℕ)
    (use_baseline_lora : Bool) (draws : Draws) : Except PyErr Linear :=
  if use_baseline_lora && (l.lora_A "baseline_lora").isSome then
    match pyDiv lora_alpha (r : ℚ) with
    | Except.error e => Except.error e
    | Except.ok s =>
      Except.ok
        { l with
          r := dset l.r "baseline_lora" r
          lora_alpha := dset l.lora_alpha "baseline_lora" lora_alpha
          scaling := dset l.scaling "baseline_lora" s
          lora_dropout :=
            dset l.lora_dropout "baseline_lora"
              (if 0 < lora_dropout then draws.dropout else id) }
  else
    l.initialize_adapter adapter_name r lora_alpha lora_dropout r_sum init_lora_weights draws

/-- `Linear.__init__` (lines 846-874): build the `nn.Linear` base (its
weight is re-randomized by `reset_parameters`, so the final content is the
given `baseWeight` sample — shaped `(in, out)` when `fan_in_fan_out`
transposed the storage, `(out, in)` otherwise), freeze it, run
`update_layer` with the full seven-argument call, then set
`active_adapter`. -/
def Linear.init (adapter_name : String) (in_features out_features : ℕ) (r : ℕ)
    (lora_alpha lora_dropout : ℚ) (fan_in_fan_out : Bool) (r_sum : ℕ)
    (use_baseline_lora : Bool) (init_lora_weights : Bool)
    (baseWeight : ℕ → ℕ → ℚ) (baseBias : Option Vec) (draws : Draws) :
    Except PyErr Linear :=
  let w : PMat :=
    if fan_in_fan_out then ⟨in_features, out_features, baseWeight⟩
    else ⟨out_features, in_features, baseWeight⟩
  let l0 : Linear :=
    { in_features := in_features
      out_features := out_features
      weight := w
      bias := baseBias
      fan_in_fan_out := fan_in_fan_out
      r := demp
      lora_alpha := demp
      scaling := demp
      lora_dropout := demp
      lora_A := demp
      lora_B := demp
      loranew_A := demp
      loranew_B := demp
      merged := false
      disable_adapters := false
      active_adapter := adapter_name }
  match l0.update_layer adapter_name r lora_alpha lora_dropout init_lora_weights r_sum
      use_baseline_lora draws with
  | Except.error e => Except.error e
  | Except.ok l => Except.ok { l with active_adapter := adapter_name }

/-- `Linear._get_active_adapter_name` (lines 928-930): the reserved name
`"baseline_lora"` takes precedence whenever it is keyed in `lora_A`. -/
def Linear.get_active_adapter_name (l : Linear) : String :=
  if (l.lora_A "baseline_lora").isSome then "baseline_lora" else l.active_adapter

/-- `Linear._merge_weights` (lines 876-890): when the adapter's rank is
positive, add `transpose(lora_B @ lora_A, fan_in_fan_out) * scaling` into
the base weight in place, and — when the adapter is keyed in `loranew_A` —
also `transpose(loranew_B @ loranew_A, fan_in_fan_out) * scaling`. -/
def Linear.merge_weights (l : Linear) (adapter_name : String) : Linear :=
  if 0 < dget l.r adapter_name 0 then
    let delta :=
      PMat.smulM (dget l.scaling adapter_name 0)
        (transpose
          ((dget l.lora_B adapter_name (PMat.zeroM 0 0)).matmul
            (dget l.lora_A adapter_name (PMat.zeroM 0 0)))
          l.fan_in_fan_out)
    let l1 := { l with weight := l.weight.addM delta }
    if (l.loranew_A adapter_name).isSome then
      let deltaNew :=
        PMat.smulM (dget l1.scaling adapter_name 0)
          (transpose
            ((dget l1.loranew_B adapter_name (PMat.zeroM 0 0)).matmul
              (dget l1.loranew_A adapter_name (PMat.zeroM 0 0)))
            l1.fan_in_fan_out)
      { l1 with weight := l1.weight.addM deltaNew }
    else l1
  else l

/-- `Linear._unmerge_weights` (lines 902-916): the same two deltas,
subtracted in the same order. -/
def Linear.unmerge_weights (l : Linear) (adapter_name : String) : Linear :=
  if 0 < dget l.r adapter_name 0 then
    let delta :=
      PMat.smulM (dget l.scaling adapter_name 0)
        (transpose
          ((dget l.lora_B adapter_name (PMat.zeroM 0 0)).matmul
            (dget l.lora_A adapter_name (PMat.zeroM 0 0)))
          l.fan_in_fan_out)
    let l1 := { l with weight := l.weight.subM delta }
    if (l.loranew_A adapter_name).isSome then
      let deltaNew :=
        PMat.smulM (dget l1.scaling adapter_name 0)
          (transpose
            ((dget l1.loranew_B adapter_name (PMat.zeroM 0 0)).matmul
              (dget l1.loranew_A adapter_name (PMat.zeroM 0 0)))
            l1.fan_in_fan_out)
      { l1 with weight := l1.weight.subM deltaNew }
    else l1
  else l

/-- Body of `Linear.merge` (lines 892-900) after the adapter name has been
resolved: no-op when the name is not keyed in `lora_A` or the layer is
already merged (a warning in the source); otherwise fold the deltas in and
transition to `merged`. -/
def Linear.mergeNamed (l : Linear) (adapter_name : String) : Linear :=
  if (l.lora_A adapter_name).isNone then l
  else if l.merged then l
  else { l.merge_weights adapter_name with merged := true }

/-- `Linear.merge` (lines 892-900): resolve the active adapter, then
`mergeNamed`. -/
def Linear.merge (l : Linear) : Linear :=
  l.mergeNamed l.get_active_adapter_name

/-- Body of `Linear.unmerge` (lines 918-926) after name resolution. -/
def Linear.unmergeNamed (l : Linear) (adapter_name : String) : Linear :=
  if (l.lora_A adapter_name).isNone then l
  else if !l.merged then l
  else { l.unmerge_weights adapter_name with merged := false }

/-- `Linear.unmerge` (lines 918-926). -/
def Linear.unmerge (l : Linear) : Linear :=
  l.unmergeNamed l.get_active_adapter_name

/-- `F.linear(x, W, bias)`: the plain affine transform `W @ x + bias`. -/
def linearF (W : PMat) (b : Option Vec) (x : Vec) : Vec :=
  fun i => W.mv x i + (match b with | some bv => bv i | none => 0)

/-- Body of `Linear.forward` (lines 932-968) after name resolution.  The
dtype round-trip at entry/exit is the identity over ℚ.  The disabled
branch may unmerge (an in-place state change), so the result pairs the
output with the possibly-updated layer. -/
def Linear.forwardNamed (l : Linear) (adapter_name : String) (x : Vec) : Vec × Linear :=
  if (l.lora_A adapter_name).isNone then
    (linearF (transpose l.weight l.fan_in_fan_out) l.bias x, l)
  else if l.disable_adapters then
    let l2 := if 0 < dget l.r adapter_name 0 && l.merged then l.unmerge else l
    (linearF (transpose l2.weight l2.fan_in_fan_out) l2.bias x, l2)
  else if 0 < dget l.r adapter_name 0 && !l.merged then
    let base := linearF (transpose l.weight l.fan_in_fan_out) l.bias x
    let x2 := (dget l.lora_dropout adapter_name id) x
    let withLora :=
      vecAdd base
        (vecSmul (dget l.scaling adapter_name 0)
          ((dget l.lora_B adapter_name (PMat.zeroM 0 0)).mv
            ((dget l.lora_A adapter_name (PMat.zeroM 0 0)).mv x2)))
    let result :=
      if (l.loranew_A adapter_name).isSome then
        vecAdd withLora
          (vecSmul (dget l.scaling adapter_name 0)
            ((dget l.loranew_B adapter_name (PMat.zeroM 0 0)).mv
              ((dget l.loranew_A adapter_name (PMat.zeroM 0 0)).mv x2)))
      else withLora
    (result, l)
  else
    (linearF (transpose l.weight l.fan_in_fan_out) l.bias x, l)

/-- `Linear.forward` (lines 932-968): resolve the active adapter, then
`forwardNamed`. -/
def Linear.forward (l : Linear) (x : Vec) : Vec × Linear :=
  l.forwardNamed l.get_active_adapter_name x

/-- `class Embedding(nn.Embedding, LoraLayer)` (lines 971 ff.):
`in_features` is `num_embeddings`, `out_features` is `embedding_dim`,
`weight` is the `(num_embeddings × embedding_dim)` lookup table.  Only the
`lora_embedding_A/B` dicts are populated on this variant; `lora_A`,
`loranew_A` and friends stay empty, so they are omitted. -/
structure Embedding where
  in_features : ℕ
  out_features : ℕ
  weight : PMat
  r : Dict ℕ
  lora_alpha : Dict ℚ
  scaling : Dict ℚ
  lora_dropout : Dict (Vec → Vec)
  lora_embedding_A : Dict PMat
  lora_embedding_B : Dict PMat
  merged : Bool
  disable_adapters : Bool
  active_adapter : String

/-- `LoraLayer.reset_lora_parameters` (lines 825-841), embedding part:
zero `lora_embedding_A` and redraw `lora_embedding_B` from the normal
distribution (the given sample) when the adapter is keyed there.  The
dense branches never fire on an embedding layer (those dicts stay
empty). -/
def Embedding.reset_lora_parameters (e : Embedding) (adapter_name : String)
    (draws : Draws) : Embedding :=
  match e.lora_embedding_A adapter_name, e.lora_embedding_B adapter_name with
  | some A, some B =>
      { e with
        lora_embedding_A := dset e.lora_embedding_A adapter_name (PMat.zeroM A.rows A.cols)
        lora_embedding_B := dset e.lora_embedding_B adapter_name ⟨B.rows, B.cols, draws.normalB⟩ }
  | _, _ => e

/-- `LoraLayer.update_layer_embedding` (lines 786-823): rename to the
reserved adapter when `use_baseline_lora` is set, skip (with a warning)
when the adapter already exists, record the hyper-parameters and dropout,
create the zero-filled factor pair `A : (r × in)`, `B : (out × r)` and
`scaling = lora_alpha / r` only when `r > 0` (so no division by zero is
possible on this path, unlike `_initialize_adapter`), then reset when
`init_lora_weights` is set. -/
def Embedding.update_layer_embedding (e : Embedding) (adapter_name0 : String) (r : ℕ)
    (lora_alpha lora_dropout : ℚ) (init_lora_weights : Bool)
    (use_baseline_lora : Bool) (draws : Draws) : Embedding :=
  let adapter_name := if use_baseline_lora then "baseline_lora" else adapter_name0
  if (e.lora_embedding_A adapter_name).isSome then e
  else
    let e1 : Embedding :=
      { e with
        r := dset e.r adapter_name r
        lora_alpha := dset e.lora_alpha adapter_name lora_alpha
        lora_dropout :=
          dset e.lora_dropout adapter_name
            (if 0 < lora_dropout then draws.dropout else id) }
    let e2 : Embedding :=
      if 0 < r then
        { e1 with
          lora_embedding_A := dset e1.lora_embedding_A adapter_name (PMat.zeroM r e.in_features)
          lora_embedding_B := dset e1.lora_embedding_B adapter_name (PMat.zeroM e.out_features r)
          scaling := dset e1.scaling adapter_name (lora_alpha / (r : ℚ)) }
      else e1
    if init_lora_weights then e2.reset_lora_parameters adapter_name draws else e2

/-- `Embedding.__init__` (lines 973-993): build the `nn.Embedding` base
(its table is re-randomized by `reset_parameters`, so the final content is
the given `baseWeight` sample), freeze it, run `update_layer_embedding`,
then set `active_adapter`. -/
def Embedding.init (adapter_name : String) (num_embeddings embedding_dim : ℕ)
    (r : ℕ) (lora_alpha lora_dropout : ℚ) (use_baseline_lora : Bool)
    (init_lora_weights : Bool) (baseWeight : ℕ → ℕ → ℚ) (draws : Draws) : Embedding :=
  let e0 : Embedding :=
    { in_features := num_embeddings
      out_features := embedding_dim
      weight := ⟨num_embeddings, embedding_dim, baseWeight⟩
      r := demp
      lora_alpha := demp
      scaling := demp
      lora_dropout := demp
      lora_embedding_A := demp
      lora_embedding_B := demp
      merged := false
      disable_adapters := false
      active_adapter := adapter_name }
  let e1 := e0.update_layer_embedding adapter_name r lora_alpha lora_dropout
    init_lora_weights use_baseline_lora draws
  { e1 with active_adapter := adapter_name }

/-- `Embedding._get_active_adapter_name` (lines 995-997). -/
def Embedding.get_active_adapter_name (e : Embedding) : String :=
  if (e.lora_embedding_A "baseline_lora").isSome then "baseline_lora" else e.active_adapter

/-- `Embedding._merge_weights` (lines 999-1005): embeddings always use the
transposed convention (`transpose(B @ A, True)`). -/
def Embedding.merge_weights (e : Embedding) (adapter_name : String) : Embedding :=
  if 0 < dget e.r adapter_name 0 then
    let delta :=
      PMat.smulM (dget e.scaling adapter_name 0)
        (transpose
          ((dget e.lora_embedding_B adapter_name (PMat.zeroM 0 0)).matmul
            (dget e.lora_embedding_A adapter_name (PMat.zeroM 0 0)))
          true)
    { e with weight := e.weight.addM delta }
  else e

/-- `Embedding._unmerge_weights` (lines 1007-1013). -/
def Embedding.unmerge_weights (e : Embedding) (adapter_name : String) : Embedding :=
  if 0 < dget e.r adapter_name 0 then
    let delta :=
      PMat.smulM (dget e.scaling adapter_name 0)
        (transpose
          ((dget e.lora_embedding_B adapter_name (PMat.zeroM 0 0)).matmul
            (dget e.lora_embedding_A adapter_name (PMat.zeroM 0 0)))
          true)
    { e with weight := e.weight.subM delta }
  else e

/-- Body of `Embedding.merge` (lines 1015-1023) after name resolution. -/
def Embedding.mergeNamed (e : Embedding) (adapter_name : String) : Embedding :=
  if (e.lora_embedding_A adapter_name).isNone then e
  else if e.merged then e
  else { e.merge_weights adapter_name with merged := true }

/-- `Embedding.merge` (lines 1015-1023). -/
def Embedding.merge (e : Embedding) : Embedding :=
  e.mergeNamed e.get_active_adapter_name

/-- Body of `Embedding.unmerge` (lines 1025-1033) after name resolution. -/
def Embedding.unmergeNamed (e : Embedding) (adapter_name : String) : Embedding :=
  if (e.lora_embedding_A adapter_name).isNone then e
  else if !e.merged then e
  else { e.unmerge_weights adapter_name with merged := false }

/-- `Embedding.unmerge` (lines 1025-1033). -/
def Embedding.unmerge (e : Embedding) : Embedding :=
  e.unmergeNamed e.get_active_adapter_name

/-- `nn.Embedding.forward` / `F.embedding(x, table)`: row `x` of the
table. -/
def embLookup (table : PMat) (x : ℕ) : Vec := fun j => table.entry x j

/-- Body of `Embedding.forward` (lines 1035-1058) after name resolution:
base lookup, plus — when enabled, unmerged and `r > 0` — the lookup of row
`x` in `lora_embedding_A.T` multiplied by `lora_embedding_B.T` and scaled.
No dropout is applied on this path. -/
def Embedding.forwardNamed (e : Embedding) (adapter_name : String) (x : ℕ) :
    Vec × Embedding :=
  if (e.lora_embedding_A adapter_name).isNone then (embLookup e.weight x, e)
  else if e.disable_adapters then
    let e2 := if 0 < dget e.r adapter_name 0 && e.merged then e.unmerge else e
    (embLookup e2.weight x, e2)
  else
    let result := embLookup e.weight x
    if 0 < dget e.r adapter_name 0 && !e.merged then
      let afterA :=
        embLookup (dget e.lora_embedding_A adapter_name (PMat.zeroM 0 0)).transposeM x
      let contrib :=
        vecSmul (dget e.scaling adapter_name 0)
          (PMat.vm afterA (dget e.lora_embedding_B adapter_name (PMat.zeroM 0 0)).transposeM)
      (vecAdd result contrib, e)
    else (result, e)

/-- `Embedding.forward` (lines 1035-1058). -/
def Embedding.forward (e : Embedding) (x : ℕ) : Vec × Embedding :=
  e.forwardNamed e.get_active_adapter_name x

/-! ## Engine level: `LoraModel` and the freestanding utilities -/

/-- Does `hay` contain `needle` as a contiguous subsequence?  (Structural
recursion over the haystack, so it evaluates by kernel reduction.) -/
def containsSeq (needle : List Char) : List Char → Bool
  | [] => needle.isEmpty
  | c :: tl => needle.isPrefixOf (c :: tl) || containsSeq needle tl

/-- `"pat" in s`: Python substring membership. -/
def strContains (s pat : String) : Bool := containsSeq pat.data s.data

/-- `s.endswith(t)`: Python suffix test. -/
def strEndsWith (s t : String) : Bool := t.data.isSuffixOf s.data

/-- A named parameter with its gradient-tracking flag, one element of
`model.named_parameters()`. -/
structure Param where
  name : String
  requires_grad : Bool
  deriving DecidableEq

/-- The first loop of `mark_only_lora_as_trainable` (lines 702-704):
`requires_grad = False` on every parameter whose dotted name does not
contain the substring `"lora_"`. -/
def freezeNonLora (params : List Param) : List Param :=
  params.map (fun p =>
    if strContains p.name "lora_" then p else { p with requires_grad := false })

/-- `mark_only_lora_as_trainable` (lines 688-718).  The model is given as
its flat parameter list plus the names of the bias parameters that belong
to LoRA-capable layers (what the `lora_only` branch reaches by iterating
`model.modules()` and touching `m.bias` on each `LoraLayer`).  The
function first freezes every non-`lora_` parameter, then dispatches on the
`bias` policy; an unrecognized value raises NotImplementedError, with the
error carrying the already-frozen parameter state. -/
def mark_only_lora_as_trainable (params : List Param) (loraLayerBias : List String)
    (bias : String) : Except (PyErr × List Param) (List Param) :=
  let ps := freezeNonLora params
  if bias = "none" then Except.ok ps
  else if bias = "all" then
    Except.ok (ps.map (fun p =>
      if strContains p.name "bias" then { p with requires_grad := true } else p))
  else if bias = "lora_only" then
    Except.ok (ps.map (fun p =>
      if p.name ∈ loraLayerBias then { p with requires_grad := true } else p))
  else Except.error (PyErr.notImplementedError, ps)

/-- Modelled from the spec: `_freeze_adapter` (imported from the utils
collaborator, not under `src/`): "freezes all parameters under the
adapter's namespace" — gradient tracking disabled on every parameter whose
name contains the adapter's name. -/
def freeze_adapter (params : List Param) (adapter_name : String) : List Param :=
  params.map (fun p =>
    if strContains p.name adapter_name then { p with requires_grad := false } else p)

/-- `target_modules` of a config: either one regex pattern — the
full-string regex match is an external utility, modelled as a given
predicate (spec §1 treats module-path pattern matching as a given
predicate) — or a list of literal suffixes. -/
inductive TargetModules
  | single (fullmatch : String → Bool)
  | multiple (suffixes : List String)

/-- The per-key test of `_find_and_replace` (lines 504-507):
`re.fullmatch` for a string pattern, `any(key.endswith(t))` for a list. -/
def TargetModules.found (tm : TargetModules) (key : String) : Bool :=
  match tm with
  | .single f => f key
  | .multiple ts => ts.any (fun t => strEndsWith key t)

/-- `LoraConfig` (lines 42-91), restricted to the fields the engine code
reads.  `target_modules` is modelled as always resolved (the model-family
default table is an external collaborator). -/
structure LoraConfig where
  r : ℕ
  target_modules : TargetModules
  lora_alpha : ℚ
  lora_dropout : ℚ
  fan_in_fan_out : Bool
  bias : String
  init_lora_weights : Bool
  r_sum : ℕ
  inference_mode : Bool

/-- One entry of the flattened `model.named_modules()` snapshot.
`container` stands for any module kind the engine does not support
(`nn.Module` containers and the like); the 8-bit quantized variant is
outside this model (`is_loaded_in_8bit` is false). -/
inductive Module
  | plainLinear (in_features out_features : ℕ) (weight : ℕ → ℕ → ℚ) (bias : Option Vec)
  | plainEmbedding (num_embeddings embedding_dim : ℕ) (weight : ℕ → ℕ → ℚ)
  | loraLinear (l : Linear)
  | loraEmbedding (e : Embedding)
  | container

/-- `LoraModel` state: the registered configs in registration order (a
Python dict preserves insertion order), the flattened module tree, and the
flat parameter list the trainability operations act on. -/
structure LoraModel where
  peft_config : List (String × LoraConfig)
  modules : List (String × Module)
  params : List Param

/-- Ordered-dict lookup. -/
def alistFind {α : Type} (pc : List (String × α)) (k : String) : Option α :=
  (pc.find? (fun p => p.1 = k)).map (fun p => p.2)

/-- Ordered-dict write: update in place when the key exists, append
otherwise. -/
def alistSet {α : Type} (pc : List (String × α)) (k : String) (v : α) :
    List (String × α) :=
  if pc.any (fun p => p.1 = k) then
    pc.map (fun p => if p.1 = k then (k, v) else p)
  else pc ++ [(k, v)]

/-- The call `target.update_layer(adapter_name, lora_config.r,
lora_config.lora_alpha, lora_config.lora_dropout,
lora_config.init_lora_weights)` at lines 519-525 supplies five positional
arguments, but `LoraLayer.update_layer` (line 764) declares six required
positional parameters — `adapter_name, r, lora_alpha, lora_dropout,
init_lora_weights, r_sum` — plus the defaulted `use_baseline_lora`.
Python argument binding therefore raises TypeError before the method body
runs; no state is touched. -/
def callUpdateLayerFiveArgs (_target : Module) (_adapter_name : String) (_r : ℕ)
    (_lora_alpha _lora_dropout : ℚ) (_init_lora_weights : Bool) :
    Except PyErr Module :=
  Except.error
    (PyErr.typeError "update_layer() missing 1 required positional argument: r_sum")

/-- The engine calls `module.merge(adapter)` (line 589) with one
positional argument, but `Linear.merge` (line 892) and `Embedding.merge`
(line 1015) declare no parameters besides `self`; Python raises TypeError
at the call, before any merge logic runs. -/
def callMergeOneArg (_m : Module) (_adapter : String) : Except PyErr Module :=
  Except.error
    (PyErr.typeError "merge() takes 1 positional argument but 2 were given")

/-- The engine calls `module.unmerge(adapter)` (line 598) with one
positional argument, but `Linear.unmerge` (line 918) and
`Embedding.unmerge` (line 1025) declare no parameters besides `self`. -/
def callUnmergeOneArg (_m : Module) (_adapter : String) : Except PyErr Module :=
  Except.error
    (PyErr.typeError "unmerge() takes 1 positional argument but 2 were given")

/-- Processing of one matched module in `_find_and_replace`
(lines 509-528).  Returns the replacement module and the updated `bias`
local (set only when the target has a `bias` attribute: `nn.Linear` layers
do, `nn.Embedding` and containers do not).  For an existing LoRA-capable
layer the source performs the five-argument `update_layer` call; for plain
modules it constructs the matching variant via `_create_new_module`
(evaluating the possibly-unbound `bias` local at the call, line 527) and
then `_replace_module` transplants the original weight and bias by
reference (lines 284-298). -/
def processMatch (cfg : LoraConfig) (adapter_name : String) (draws : Draws)
    (biasVar : Option Bool) (m : Module) : Except PyErr (Module × Option Bool) :=
  match m with
  | .loraLinear _ =>
      match callUpdateLayerFiveArgs m adapter_name cfg.r cfg.lora_alpha
          cfg.lora_dropout cfg.init_lora_weights with
      | Except.error e => Except.error e
      | Except.ok m2 => Except.ok (m2, some true)
  | .loraEmbedding _ =>
      match callUpdateLayerFiveArgs m adapter_name cfg.r cfg.lora_alpha
          cfg.lora_dropout cfg.init_lora_weights with
      | Except.error e => Except.error e
      | Except.ok m2 => Except.ok (m2, biasVar)
  | .plainLinear nin nout w b =>
      let biasVar2 := some b.isSome
      -- `_create_new_module`, `torch.nn.Linear` branch (lines 556-564):
      -- the effective fan_in_fan_out is forced to False (with a warning)
      -- and, unlike the superseded code at line 275, `r_sum` is NOT passed
      -- through, so the new layer is built with its default r_sum = 0.
      match Linear.init adapter_name nin nout cfg.r cfg.lora_alpha cfg.lora_dropout
          false 0 false cfg.init_lora_weights w b draws with
      | Except.error e => Except.error e
      | Except.ok lnew =>
          -- `_replace_module`: the original weight (and bias, when present)
          -- is transplanted onto the new module by reference.
          Except.ok (.loraLinear
            { lnew with weight := ⟨nout, nin, w⟩, bias := b }, biasVar2)
  | .plainEmbedding n d w =>
      -- the `bias` local is evaluated as an argument of `_create_new_module`
      -- (line 527); if no earlier matched module bound it, Python raises
      -- UnboundLocalError here.
      match biasVar with
      | none => Except.error PyErr.unboundLocalError
      | some _ =>
          let enew := Embedding.init adapter_name n d cfg.r cfg.lora_alpha
            cfg.lora_dropout false cfg.init_lora_weights w draws
          Except.ok (.loraEmbedding { enew with weight := ⟨n, d, w⟩ }, biasVar)
  | .container =>
      match biasVar with
      | none => Except.error PyErr.unboundLocalError
      | some _ =>
          Except.error (PyErr.valueError
            "Target module is not supported. Currently, only `torch.nn.Linear` and `Conv1D` are supported.")

/-- The scan loop of `_find_and_replace` (lines 503-528) over the frozen
`key_list` snapshot, threading the `bias` local and the
`is_target_modules_in_base_model` flag.  On an exception the error carries
the module list at that moment: already-replaced prefix, the failing
module and the rest untouched. -/
def frScan (cfg : LoraConfig) (adapter_name : String) (draws : Draws)
    (biasVar : Option Bool) :
    List (String × Module) →
      Except (PyErr × List (String × Module)) (List (String × Module) × Bool)
  | [] => Except.ok ([], false)
  | (key, m) :: rest =>
    if cfg.target_modules.found key then
      match processMatch cfg adapter_name draws biasVar m with
      | Except.error e => Except.error (e, (key, m) :: rest)
      | Except.ok (m2, biasVar2) =>
          match frScan cfg adapter_name draws biasVar2 rest with
          | Except.error (e, rest2) => Except.error (e, (key, m2) :: rest2)
          | Except.ok (rest2, _) => Except.ok ((key, m2) :: rest2, true)
    else
      match frScan cfg adapter_name draws biasVar rest with
      | Except.error (e, rest2) => Except.error (e, (key, m) :: rest2)
      | Except.ok (rest2, found) => Except.ok ((key, m) :: rest2, found)

/-- `LoraModel._find_and_replace` (lines 483-534): look up the adapter's
config, scan every module name against the target pattern, and raise
ValueError when zero modules matched across the whole scan.  The 8-bit
branch (lines 485-491) is outside this model. -/
def LoraModel.find_and_replace (m : LoraModel) (adapter_name : String) (draws : Draws) :
    Except (PyErr × LoraModel) LoraModel :=
  match alistFind m.peft_config adapter_name with
  | none => Except.error (PyErr.keyError adapter_name, m)
  | some cfg =>
    match frScan cfg adapter_name draws none m.modules with
    | Except.error (e, mods) => Except.error (e, { m with modules := mods })
    | Except.ok (mods, found) =>
        if found then Except.ok { m with modules := mods }
        else
          Except.error (PyErr.valueError
            "Target modules not found in the base model. Please check the target modules and try again.",
            { m with modules := mods })

/-- The bias parameters belonging to LoRA-capable layers (what the
`lora_only` policy unfreezes): `<module key>.bias` for every LoRA Linear
whose bias is present. -/
def LoraModel.loraBiasNames (m : LoraModel) : List String :=
  m.modules.filterMap (fun km =>
    match km.2 with
    | .loraLinear l => if l.bias.isSome then some (km.1 ++ ".bias") else none
    | _ => none)

/-- `LoraModel.add_adapter` (lines 452-481): warn-and-return when the name
is already registered; ValueError when the config is omitted; register the
(prepared) config; inject via `_find_and_replace`; enforce the
single-adapter-bias invariant; mark only LoRA parameters trainable; freeze
the adapter when the config is inference-only. -/
def LoraModel.add_adapter (m : LoraModel) (adapter_name : String)
    (config : Option LoraConfig) (draws : Draws) :
    Except (PyErr × LoraModel) LoraModel :=
  if (alistFind m.peft_config adapter_name).isSome then Except.ok m
  else
    match config with
    | none =>
        Except.error (PyErr.valueError "Configuration for adapter must be provided.", m)
    | some cfg =>
      let m1 : LoraModel :=
        { m with peft_config := alistSet m.peft_config adapter_name cfg }
      match m1.find_and_replace adapter_name draws with
      | Except.error e => Except.error e
      | Except.ok m2 =>
          if 1 < m2.peft_config.length ∧ cfg.bias ≠ "none" then
            Except.error (PyErr.valueError
              "LoraModel supports only 1 adapter with bias. When using multiple adapters, set bias to 'none' for all adapters.",
              m2)
          else
            match mark_only_lora_as_trainable m2.params m2.loraBiasNames cfg.bias with
            | Except.error (e, ps) => Except.error (e, { m2 with params := ps })
            | Except.ok ps =>
                let m3 : LoraModel := { m2 with params := ps }
                if cfg.inference_mode then
                  Except.ok { m3 with params := freeze_adapter m3.params adapter_name }
                else Except.ok m3

/-- The inner loop of `merge_adapter` (lines 586-589): on each
LoRA-capable module, call `module.merge(adapter)` for every adapter name —
a call that cannot bind (see `callMergeOneArg`). -/
def mergeNames (names : List String) : Module → Except PyErr Module
  | m =>
    match names with
    | [] => Except.ok m
    | n :: ns =>
        match callMergeOneArg m n with
        | Except.error e => Except.error e
        | Except.ok m2 => mergeNames ns m2

/-- The inner loop of `unmerge_adapter` (lines 595-598). -/
def unmergeNames (names : List String) : Module → Except PyErr Module
  | m =>
    match names with
    | [] => Except.ok m
    | n :: ns =>
        match callUnmergeOneArg m n with
        | Except.error e => Except.error e
        | Except.ok m2 => unmergeNames ns m2

/-- The module walk shared by `merge_adapter` and `unmerge_adapter`:
apply `inner` to every LoRA-capable module, leave the rest untouched; on
an exception the error carries the module list at that moment. -/
def broadcastScan (inner : Module → Except PyErr Module) :
    List (String × Module) →
      Except (PyErr × List (String × Module)) (List (String × Module))
  | [] => Except.ok []
  | (key, m) :: rest =>
    match m with
    | .loraLinear _ | .loraEmbedding _ =>
        match inner m with
        | Except.error e => Except.error (e, (key, m) :: rest)
        | Except.ok m2 =>
            match broadcastScan inner rest with
            | Except.error (e, rest2) => Except.error (e, (key, m2) :: rest2)
            | Except.ok rest2 => Except.ok ((key, m2) :: rest2)
    | _ =>
        match broadcastScan inner rest with
        | Except.error (e, rest2) => Except.error (e, (key, m) :: rest2)
        | Except.ok rest2 => Except.ok ((key, m) :: rest2)

/-- `LoraModel.merge_adapter` (lines 582-589): when the name is omitted,
target every registered adapter in registration order; walk all modules
and call `module.merge(adapter)` on each LoRA-capable one. -/
def LoraModel.merge_adapter (m : LoraModel) (adapter_name : Option String) :
    Except (PyErr × LoraModel) LoraModel :=
  let adapter_names :=
    match adapter_name with
    | some n => [n]
    | none => m.peft_config.map (fun p => p.1)
  match broadcastScan (mergeNames adapter_names) m.modules with
  | Except.error (e, mods) => Except.error (e, { m with modules := mods })
  | Except.ok mods => Except.ok { m with modules := mods }

/-- `LoraModel.unmerge_adapter` (lines 591-598). -/
def LoraModel.unmerge_adapter (m : LoraModel) (adapter_name : Option String) :
    Except (PyErr × LoraModel) LoraModel :=
  let adapter_names :=
    match adapter_name with
    | some n => [n]
    | none => m.peft_config.map (fun p => p.1)
  match broadcastScan (unmergeNames adapter_names) m.modules with
  | Except.error (e, mods) => Except.error (e, { m with modules := mods })
  | Except.ok mods => Except.ok { m with modules := mods }

/-- The set comprehension `{self.peft_config[adapter].r for adapter in
adapters}` (line 642): the config of each source adapter is looked up
left to right (KeyError on a missing one) and its rank collected. -/
def rankList (pc : List (String × LoraConfig)) : List String → Except PyErr (List ℕ)
  | [] => Except.ok []
  | a :: rest =>
    match alistFind pc a with
    | none => Except.error (PyErr.keyError a)
    | some c =>
        match rankList pc rest with
        | Except.error e => Except.error e
        | Except.ok rs => Except.ok (c.r :: rs)

/-- One iteration of the dense accumulation loop of `add_weighted_adapter`
(lines 656-662): skip a source adapter absent from this layer's `lora_A`;
otherwise `new_A += source_A * weight * scaling[source]` and
`new_B += source_B * weight`. -/
def combineStep (adapter_name : String) (l : Linear) (aw : String × ℚ) : Linear :=
  if (l.lora_A aw.1).isSome then
    let accA := dget l.lora_A adapter_name (PMat.zeroM 0 0)
    let accB := dget l.lora_B adapter_name (PMat.zeroM 0 0)
    let srcA := dget l.lora_A aw.1 (PMat.zeroM 0 0)
    let srcB := dget l.lora_B aw.1 (PMat.zeroM 0 0)
    { l with
      lora_A := dset l.lora_A adapter_name
        (accA.addM (PMat.smulM (aw.2 * dget l.scaling aw.1 0) srcA))
      lora_B := dset l.lora_B adapter_name
        (accB.addM (PMat.smulM aw.2 srcB)) }
  else l

/-- The dense branch of the per-layer accumulation of
`add_weighted_adapter` (lines 653-662): zero the new adapter's factor pair
in place, then fold `zip(adapters, weights)` through `combineStep`. -/
def combineLinear (adapters : List String) (weights : List ℚ) (adapter_name : String)
    (l : Linear) : Linear :=
  if (l.lora_A adapter_name).isSome then
    let A0 := dget l.lora_A adapter_name (PMat.zeroM 0 0)
    let B0 := dget l.lora_B adapter_name (PMat.zeroM 0 0)
    let l0 : Linear :=
      { l with
        lora_A := dset l.lora_A adapter_name (PMat.zeroM A0.rows A0.cols)
        lora_B := dset l.lora_B adapter_name (PMat.zeroM B0.rows B0.cols) }
    (adapters.zip weights).foldl (combineStep adapter_name) l0
  else l

/-- One iteration of the embedding accumulation loop (lines 667-673). -/
def combineEmbStep (adapter_name : String) (e : Embedding) (aw : String × ℚ) :
    Embedding :=
  if (e.lora_embedding_A aw.1).isSome then
    let accA := dget e.lora_embedding_A adapter_name (PMat.zeroM 0 0)
    let accB := dget e.lora_embedding_B adapter_name (PMat.zeroM 0 0)
    let srcA := dget e.lora_embedding_A aw.1 (PMat.zeroM 0 0)
    let srcB := dget e.lora_embedding_B aw.1 (PMat.zeroM 0 0)
    { e with
      lora_embedding_A := dset e.lora_embedding_A adapter_name
        (accA.addM (PMat.smulM (aw.2 * dget e.scaling aw.1 0) srcA))
      lora_embedding_B := dset e.lora_embedding_B adapter_name
        (accB.addM (PMat.smulM aw.2 srcB)) }
  else e

/-- The embedding branch of the per-layer accumulation (lines 664-673). -/
def combineEmbedding (adapters : List String) (weights : List ℚ)
    (adapter_name : String) (e : Embedding) : Embedding :=
  if (e.lora_embedding_A adapter_name).isSome then
    let A0 := dget e.lora_embedding_A adapter_name (PMat.zeroM 0 0)
    let B0 := dget e.lora_embedding_B adapter_name (PMat.zeroM 0 0)
    let e0 : Embedding :=
      { e with
        lora_embedding_A := dset e.lora_embedding_A adapter_name (PMat.zeroM A0.rows A0.cols)
        lora_embedding_B := dset e.lora_embedding_B adapter_name (PMat.zeroM B0.rows B0.cols) }
    (adapters.zip weights).foldl (combineEmbStep adapter_name) e0
  else e

/-- The accumulation walk of `add_weighted_adapter` (lines 649-673):
module keys containing the substring `"lora"` are filtered out of
`key_list`; each remaining LoRA-capable module gets the weighted
combination written into the new adapter's factor pair. -/
def awLoop (adapters : List String) (weights : List ℚ) (adapter_name : String)
    (mods : List (String × Module)) : List (String × Module) :=
  mods.map (fun km =>
    if strContains km.1 "lora" then km
    else
      match km.2 with
      | .loraLinear l => (km.1, .loraLinear (combineLinear adapters weights adapter_name l))
      | .loraEmbedding e =>
          (km.1, .loraEmbedding (combineEmbedding adapters weights adapter_name e))
      | _ => km)

/-- `LoraModel.add_weighted_adapter` (lines 641-673): the rank-uniformity
check is the first statement; then the new name is registered as an alias
of the first source's config object and `lora_alpha` is set to the shared
rank — a mutation visible through both dict entries, since they alias one
object; then injection, trainability marking, freezing, and the
accumulation walk. -/
def LoraModel.add_weighted_adapter (m : LoraModel) (adapters : List String)
    (weights : List ℚ) (adapter_name : String) (draws : Draws) :
    Except (PyErr × LoraModel) LoraModel :=
  match rankList m.peft_config adapters with
  | Except.error e => Except.error (e, m)
  | Except.ok ranks =>
    if ranks.dedup.length ≠ 1 then
      Except.error (PyErr.valueError "All adapters must have the same r value", m)
    else
      match adapters with
      | [] =>
          -- unreachable: an empty source list yields an empty rank set,
          -- caught by the uniformity check above
          Except.error (PyErr.valueError "All adapters must have the same r value", m)
      | a0 :: _ =>
        match alistFind m.peft_config a0 with
        | none => Except.error (PyErr.keyError a0, m)  -- unreachable: rankList succeeded
        | some cfg0 =>
          let newCfg : LoraConfig := { cfg0 with lora_alpha := (cfg0.r : ℚ) }
          let m1 : LoraModel :=
            { m with
              peft_config :=
                alistSet (alistSet m.peft_config adapter_name newCfg) a0 newCfg }
          match m1.find_and_replace adapter_name draws with
          | Except.error e => Except.error e
          | Except.ok m2 =>
            match mark_only_lora_as_trainable m2.params m2.loraBiasNames newCfg.bias with
            | Except.error (e, ps) => Except.error (e, { m2 with params := ps })
            | Except.ok ps =>
                let m3 : LoraModel := { m2 with params := freeze_adapter ps adapter_name }
                Except.ok { m3 with modules := awLoop adapters weights adapter_name m3.modules }

/-! ## Helper lemmas -/

theorem PMat.extM (A B : PMat) (h1 : A.rows = B.rows) (h2 : A.cols = B.cols)
    (h3 : ∀ i j, A.entry i j = B.entry i j) : A = B := by
  cases A with
  | mk r c f =>
    cases B with
    | mk r' c' g =>
      simp only at h1 h2
      subst h1
      subst h2
      have : f = g := funext fun i => funext fun j => h3 i j
      rw [this]

/-- `merge_weights` touches only the base weight. -/
theorem Linear.merge_weights_fields (l : Linear) (n : String) :
    (l.merge_weights n).lora_A = l.lora_A ∧ (l.merge_weights n).lora_B = l.lora_B ∧
    (l.merge_weights n).loranew_A = l.loranew_A ∧ (l.merge_weights n).loranew_B = l.loranew_B ∧
    (l.merge_weights n).scaling = l.scaling ∧ (l.merge_weights n).r = l.r ∧
    (l.merge_weights n).fan_in_fan_out = l.fan_in_fan_out ∧
    (l.merge_weights n).active_adapter = l.active_adapter ∧
    (l.merge_weights n).merged = l.merged := by
  unfold Linear.merge_weights
  by_cases h1 : 0 < dget l.r n 0 <;> by_cases h2 : (l.loranew_A n).isSome <;>
    simp [h1, h2]

/-- `unmerge_weights` touches only the base weight. -/
theorem Linear.unmerge_weights_fields (l : Linear) (n : String) :
    (l.unmerge_weights n).lora_A = l.lora_A ∧ (l.unmerge_weights n).lora_B = l.lora_B ∧
    (l.unmerge_weights n).loranew_A = l.loranew_A ∧ (l.unmerge_weights n).loranew_B = l.loranew_B ∧
    (l.unmerge_weights n).scaling = l.scaling ∧ (l.unmerge_weights n).r = l.r ∧
    (l.unmerge_weights n).fan_in_fan_out = l.fan_in_fan_out ∧
    (l.unmerge_weights n).active_adapter = l.active_adapter ∧
    (l.unmerge_weights n).merged = l.merged := by
  unfold Linear.unmerge_weights
  by_cases h1 : 0 < dget l.r n 0 <;> by_cases h2 : (l.loranew_A n).isSome <;>
    simp [h1, h2]

/-- The delta `transpose(lora_B @ lora_A, fan_in_fan_out) * scaling`. -/
def Linear.loraDelta (l : Linear) (n : String) : PMat :=
  PMat.smulM (dget l.scaling n 0)
    (transpose
      ((dget l.lora_B n (PMat.zeroM 0 0)).matmul (dget l.lora_A n (PMat.zeroM 0 0)))
      l.fan_in_fan_out)

/-- The delta `transpose(loranew_B @ loranew_A, fan_in_fan_out) * scaling`. -/
def Linear.loranewDelta (l : Linear) (n : String) : PMat :=
  PMat.smulM (dget l.scaling n 0)
    (transpose
      ((dget l.loranew_B n (PMat.zeroM 0 0)).matmul (dget l.loranew_A n (PMat.zeroM 0 0)))
      l.fan_in_fan_out)

theorem Linear.merge_weights_weight (l : Linear) (n : String) (h : 0 < dget l.r n 0) :
    (l.merge_weights n).weight =
      if (l.loranew_A n).isSome then
        (l.weight.addM (l.loraDelta n)).addM (l.loranewDelta n)
      else l.weight.addM (l.loraDelta n) := by
  unfold Linear.merge_weights Linear.loraDelta Linear.loranewDelta
  by_cases h2 : (l.loranew_A n).isSome <;> simp [h, h2]

theorem Linear.unmerge_weights_weight (l : Linear) (n : String) (h : 0 < dget l.r n 0) :
    (l.unmerge_weights n).weight =
      if (l.loranew_A n).isSome then
        (l.weight.subM (l.loraDelta n)).subM (l.loranewDelta n)
      else l.weight.subM (l.loraDelta n) := by
  unfold Linear.unmerge_weights Linear.loraDelta Linear.loranewDelta
  by_cases h2 : (l.loranew_A n).isSome <;> simp [h, h2]

/-- Adding then subtracting the same two deltas restores a matrix
exactly over ℚ. -/
theorem addM_addM_subM_subM (W D1 D2 : PMat) :
    (((W.addM D1).addM D2).subM D1).subM D2 = W := by
  apply PMat.extM <;> simp [PMat.addM, PMat.subM]
  intro i j
  ring

theorem addM_subM (W D : PMat) : (W.addM D).subM D = W := by
  apply PMat.extM <;> simp [PMat.addM, PMat.subM]

/-! ## C1: merge / unmerge round-trip on a dense LoRA layer -/

/-- C1: for every dense LoRA layer whose resolved active adapter is
registered (keyed in `lora_A`) with rank `r > 0` and that is currently
unmerged, `merge()` followed by `unmerge()` restores the base weight
exactly (exact rational arithmetic models exact real arithmetic), and the
layer is unmerged again: `unmerge` subtracts exactly the delta
`transpose(B@A) * scaling (+ transpose(B_new@A_new) * scaling)` that
`merge` added. -/
theorem merge_unmerge_roundtrip (l : Linear)
    (hreg : (l.lora_A l.get_active_adapter_name).isSome = true)
    (hr : 0 < dget l.r l.get_active_adapter_name 0)
    (hm : l.merged = false) :
    (l.merge.unmerge).weight = l.weight ∧ (l.merge.unmerge).merged = false := by
  obtain ⟨A, hA⟩ := Option.isSome_iff_exists.mp hreg
  have hmerge : l.merge = { l.merge_weights l.get_active_adapter_name with merged := true } := by
    unfold Linear.merge Linear.mergeNamed
    simp [hA, hm]
  obtain ⟨f1, f2, f3, f4, f5, f6, f7, f8, _⟩ :=
    Linear.merge_weights_fields l l.get_active_adapter_name
  set n := l.get_active_adapter_name with hn
  -- the merged layer resolves the same adapter name
  have hname2 : (l.merge).get_active_adapter_name = n := by
    rw [hmerge]
    unfold Linear.get_active_adapter_name at hn ⊢
    simp only [f1, f8]
    exact hn.symm
  have hA2 : (l.merge).lora_A n = some A := by rw [hmerge]; simp only [f1]; exact hA
  have hr2 : 0 < dget (l.merge).r n 0 := by rw [hmerge]; simp only [f6]; exact hr
  have hmerged2 : (l.merge).merged = true := by rw [hmerge]
  have hunmerge : l.merge.unmerge =
      { (l.merge).unmerge_weights n with merged := false } := by
    unfold Linear.unmerge Linear.unmergeNamed
    rw [hname2]
    simp [hA2, hmerged2]
  constructor
  · rw [hunmerge]
    show ((l.merge).unmerge_weights n).weight = l.weight
    rw [Linear.unmerge_weights_weight _ _ hr2]
    have hld : (l.merge).loraDelta n = l.loraDelta n := by
      unfold Linear.loraDelta
      rw [hmerge]; simp only [f1, f2, f5, f7]
    have hlnd : (l.merge).loranewDelta n = l.loranewDelta n := by
      unfold Linear.loranewDelta
      rw [hmerge]; simp only [f3, f4, f5, f7]
    have hlnA : (l.merge).loranew_A n = l.loranew_A n := by
      rw [hmerge]; simp only [f3]
    have hw2 : (l.merge).weight =
        if (l.loranew_A n).isSome then
          (l.weight.addM (l.loraDelta n)).addM (l.loranewDelta n)
        else l.weight.addM (l.loraDelta n) := by
      rw [hmerge]
      show (l.merge_weights n).weight = _
      exact Linear.merge_weights_weight l n hr
    rw [hld, hlnd, hlnA, hw2]
    by_cases h2 : (l.loranew_A n).isSome = true
    · simp only [if_pos h2]
      exact addM_addM_subM_subM _ _ _
    · simp only [if_neg h2]
      exact addM_subM _ _
  · rw [hunmerge]

/-- A concrete dense LoRA layer: one adapter `"a"` of rank 1, scaling 2,
nonzero factors, currently unmerged. -/
def sampleLinear : Linear :=
  { in_features := 2
    out_features := 2
    weight := ⟨2, 2, fun i j => (i : ℚ) + j⟩
    bias := none
    fan_in_fan_out := false
    r := fun s => if s = "a" then some 1 else none
    lora_alpha := fun s => if s = "a" then some 2 else none
    scaling := fun s => if s = "a" then some 2 else none
    lora_dropout := fun s => if s = "a" then some id else none
    lora_A := fun s => if s = "a" then some ⟨1, 2, fun _ _ => 1⟩ else none
    lora_B := fun s => if s = "a" then some ⟨2, 1, fun _ _ => 1⟩ else none
    loranew_A := fun s => if s = "a" then some ⟨1, 2, fun _ _ => 1⟩ else none
    loranew_B := fun s => if s = "a" then some ⟨2, 1, fun _ _ => 1⟩ else none
    merged := false
    disable_adapters := false
    active_adapter := "a" }

/-- Witness for C1 at `sampleLinear`. -/
theorem merge_unmerge_roundtrip_witness :
    (sampleLinear.merge.unmerge).weight = sampleLinear.weight ∧
    (sampleLinear.merge.unmerge).merged = false :=
  merge_unmerge_roundtrip sampleLinear (by decide) (by decide) (by decide)

/-! ## C9: precedence of the reserved adapter name `"baseline_lora"` -/

/-- C9: on every dense or embedding LoRA layer in which `"baseline_lora"`
has a registered factor pair, `merge`, `unmerge` and `forward` all resolve
to and act on `"baseline_lora"`'s state regardless of `active_adapter`
(`lBase`, `eBase`); when it is absent, they resolve to `active_adapter`
(`lOther`, `eOther`). -/
theorem baseline_lora_precedence (lBase lOther : Linear) (eBase eOther : Embedding)
    (x : Vec) (ix : ℕ)
    (hl : (lBase.lora_A "baseline_lora").isSome = true)
    (hl2 : (lOther.lora_A "baseline_lora").isSome = false)
    (he : (eBase.lora_embedding_A "baseline_lora").isSome = true)
    (he2 : (eOther.lora_embedding_A "baseline_lora").isSome = false) :
    lBase.get_active_adapter_name = "baseline_lora" ∧
    lBase.merge = lBase.mergeNamed "baseline_lora" ∧
    lBase.unmerge = lBase.unmergeNamed "baseline_lora" ∧
    lBase.forward x = lBase.forwardNamed "baseline_lora" x ∧
    eBase.get_active_adapter_name = "baseline_lora" ∧
    eBase.merge = eBase.mergeNamed "baseline_lora" ∧
    eBase.unmerge = eBase.unmergeNamed "baseline_lora" ∧
    eBase.forward ix = eBase.forwardNamed "baseline_lora" ix ∧
    lOther.get_active_adapter_name = lOther.active_adapter ∧
    eOther.get_active_adapter_name = eOther.active_adapter := by
  have h1 : lBase.get_active_adapter_name = "baseline_lora" := by
    unfold Linear.get_active_adapter_name; simp [hl]
  have h2 : eBase.get_active_adapter_name = "baseline_lora" := by
    unfold Embedding.get_active_adapter_name; simp [he]
  have h3 : lOther.get_active_adapter_name = lOther.active_adapter := by
    unfold Linear.get_active_adapter_name; simp [hl2]
  have h4 : eOther.get_active_adapter_name = eOther.active_adapter := by
    unfold Embedding.get_active_adapter_name; simp [he2]
  refine ⟨h1, ?_, ?_, ?_, h2, ?_, ?_, ?_, h3, h4⟩
  · unfold Linear.merge; rw [h1]
  · unfold Linear.unmerge; rw [h1]
  · unfold Linear.forward; rw [h1]
  · unfold Embedding.merge; rw [h2]
  · unfold Embedding.unmerge; rw [h2]
  · unfold Embedding.forward; rw [h2]

/-- A dense LoRA layer whose `"baseline_lora"` adapter is registered while
`active_adapter` points elsewhere. -/
def sampleLinearBaseline : Linear :=
  { sampleLinear with
    lora_A := fun s => if s = "baseline_lora" then some ⟨1, 2, fun _ _ => 1⟩ else none
    lora_B := fun s => if s = "baseline_lora" then some ⟨2, 1, fun _ _ => 1⟩ else none
    active_adapter := "task0" }

/-- An embedding LoRA layer with a registered `"baseline_lora"` adapter. -/
def sampleEmbeddingBaseline : Embedding :=
  { in_features := 3
    out_features := 2
    weight := ⟨3, 2, fun i j => (i : ℚ) - j⟩
    r := fun s => if s = "baseline_lora" then some 1 else none
    lora_alpha := fun s => if s = "baseline_lora" then some 1 else none
    scaling := fun s => if s = "baseline_lora" then some 1 else none
    lora_dropout := fun s => if s = "baseline_lora" then some id else none
    lora_embedding_A := fun s => if s = "baseline_lora" then some ⟨1, 3, fun _ _ => 1⟩ else none
    lora_embedding_B := fun s => if s = "baseline_lora" then some ⟨2, 1, fun _ _ => 1⟩ else none
    merged := false
    disable_adapters := false
    active_adapter := "task0" }

/-- An embedding LoRA layer without `"baseline_lora"`. -/
def sampleEmbeddingOther : Embedding :=
  { sampleEmbeddingBaseline with
    r := fun s => if s = "a" then some 1 else none
    lora_embedding_A := fun s => if s = "a" then some ⟨1, 3, fun _ _ => 1⟩ else none
    lora_embedding_B := fun s => if s = "a" then some ⟨2, 1, fun _ _ => 1⟩ else none
    active_adapter := "a" }

/-- Witness for C9 at concrete layers with and without the reserved
adapter. -/
theorem baseline_lora_precedence_witness :
    sampleLinearBaseline.get_active_adapter_name = "baseline_lora" ∧
    sampleLinearBaseline.merge = sampleLinearBaseline.mergeNamed "baseline_lora" ∧
    sampleLinearBaseline.unmerge = sampleLinearBaseline.unmergeNamed "baseline_lora" ∧
    sampleLinearBaseline.forward (fun _ => 1) =
      sampleLinearBaseline.forwardNamed "baseline_lora" (fun _ => 1) ∧
    sampleEmbeddingBaseline.get_active_adapter_name = "baseline_lora" ∧
    sampleEmbeddingBaseline.merge = sampleEmbeddingBaseline.mergeNamed "baseline_lora" ∧
    sampleEmbeddingBaseline.unmerge = sampleEmbeddingBaseline.unmergeNamed "baseline_lora" ∧
    sampleEmbeddingBaseline.forward 0 = sampleEmbeddingBaseline.forwardNamed "baseline_lora" 0 ∧
    sampleLinear.get_active_adapter_name = sampleLinear.active_adapter ∧
    sampleEmbeddingOther.get_active_adapter_name = sampleEmbeddingOther.active_adapter :=
  baseline_lora_precedence sampleLinearBaseline sampleLinear sampleEmbeddingBaseline
    sampleEmbeddingOther (fun _ => 1) 0 (by decide) (by decide) (by decide) (by decide)

/-! ## C10: invalid bias policy freezes first, then raises -/

/-- C10: for every bias value outside {"none", "all", "lora_only"},
`mark_only_lora_as_trainable` raises NotImplementedError, but only after
having already set `requires_grad = False` on every parameter whose name
does not contain `"lora_"`: the error carries exactly the globally frozen
parameter state. -/
theorem invalid_bias_freezes_then_raises (params : List Param)
    (loraLayerBias : List String) (bias : String)
    (h1 : bias ≠ "none") (h2 : bias ≠ "all") (h3 : bias ≠ "lora_only") :
    mark_only_lora_as_trainable params loraLayerBias bias =
      Except.error (PyErr.notImplementedError, freezeNonLora params) := by
  unfold mark_only_lora_as_trainable
  simp [h1, h2, h3]

/-- Witness for C10: policy `"foo"` raises with the non-LoRA parameters
frozen. -/
theorem invalid_bias_freezes_then_raises_witness :
    mark_only_lora_as_trainable
        [⟨"base.weight", true⟩, ⟨"base.bias", true⟩, ⟨"q.lora_A.a.weight", true⟩]
        [] "foo" =
      Except.error (PyErr.notImplementedError,
        freezeNonLora [⟨"base.weight", true⟩, ⟨"base.bias", true⟩, ⟨"q.lora_A.a.weight", true⟩]) :=
  invalid_bias_freezes_then_raises _ _ "foo" (by decide) (by decide) (by decide)

/-! ## C7: rank mismatch raised before any mutation -/

/-- C7: whenever the source adapters' ranks are not all identical,
`add_weighted_adapter` raises the rank-mismatch ValueError as its first
action: the error state is exactly the original model — no config
registered under the new name, no layer or factor pair modified. -/
theorem rank_mismatch_raises_before_mutation (m : LoraModel) (adapters : List String)
    (weights : List ℚ) (adapter_name : String) (draws : Draws) (ranks : List ℕ)
    (hr : rankList m.peft_config adapters = Except.ok ranks)
    (hne : ranks.dedup.length ≠ 1) :
    m.add_weighted_adapter adapters weights adapter_name draws =
      Except.error (PyErr.valueError "All adapters must have the same r value", m) := by
  unfold LoraModel.add_weighted_adapter
  rw [hr]
  simp [hne]

/-- A basic config used by the concrete engine-level witnesses: rank 4,
suffix targets `["q"]`, bias `"none"`. -/
def cfgR4 : LoraConfig :=
  { r := 4
    target_modules := TargetModules.multiple ["q"]
    lora_alpha := 8
    lora_dropout := 0
    fan_in_fan_out := false
    bias := "none"
    init_lora_weights := true
    r_sum := 0
    inference_mode := false }

/-- The same config with rank 8. -/
def cfgR8 : LoraConfig := { cfgR4 with r := 8 }

/-- Deterministic draw samples for the concrete witnesses. -/
def draws0 : Draws :=
  { loranewA := fun _ _ => 3
    loranewB := fun _ _ => 4
    loraA := fun _ _ => 5
    loraB := fun _ _ => 6
    kaimingA := fun _ _ => 7
    normalB := fun _ _ => 8
    dropout := id }

/-- A model holding two registered adapters of ranks 4 and 8 and no
modules. -/
def modelRankMix : LoraModel :=
  { peft_config := [("a", cfgR4), ("b", cfgR8)]
    modules := []
    params := [] }

/-- Witness for C7: combining adapters of ranks {4, 8} raises the
rank-mismatch error with the model untouched. -/
theorem rank_mismatch_raises_before_mutation_witness :
    modelRankMix.add_weighted_adapter ["a", "b"] [1/2, 1/2] "c" draws0 =
      Except.error (PyErr.valueError "All adapters must have the same r value",
        modelRankMix) :=
  rank_mismatch_raises_before_mutation modelRankMix ["a", "b"] [1/2, 1/2] "c" draws0
    [4, 8] rfl (by decide)

/-! ## C8: zero targets matched is a hard error -/

/-- A scan over modules none of which match the target pattern leaves the
module list untouched and reports no match. -/
theorem frScan_no_match (cfg : LoraConfig) (adapter_name : String) (draws : Draws)
    (biasVar : Option Bool) (mods : List (String × Module))
    (h : ∀ p ∈ mods, cfg.target_modules.found p.1 = false) :
    frScan cfg adapter_name draws biasVar mods = Except.ok (mods, false) := by
  induction mods with
  | nil => rfl
  | cons hd tl ih =>
    obtain ⟨key, md⟩ := hd
    have hhd : cfg.target_modules.found key = false := h (key, md) (by simp)
    have htl : ∀ p ∈ tl, cfg.target_modules.found p.1 = false :=
      fun p hp => h p (by simp [hp])
    unfold frScan
    simp [hhd, ih htl]

/-- C8: for every model and registered target pattern such that no module
name in the tree matches, `_find_and_replace` raises the
no-targets-matched ValueError (with the model unchanged) rather than
returning silently — for module trees of any size. -/
theorem no_targets_matched_raises (m : LoraModel) (adapter_name : String)
    (cfg : LoraConfig) (draws : Draws)
    (hc : alistFind m.peft_config adapter_name = some cfg)
    (hnone : ∀ p ∈ m.modules, cfg.target_modules.found p.1 = false) :
    m.find_and_replace adapter_name draws =
      Except.error (PyErr.valueError
        "Target modules not found in the base model. Please check the target modules and try again.",
        m) := by
  unfold LoraModel.find_and_replace
  rw [hc]
  have hscan := frScan_no_match cfg adapter_name draws none m.modules hnone
  simp [hscan]

/-- A model whose only module name matches nothing in `cfgR4`'s targets. -/
def modelNoMatch : LoraModel :=
  { peft_config := [("a", cfgR4)]
    modules := [("encoder.block", Module.container)]
    params := [] }

/-- Witness for C8: the pattern `["q"]` matches no module of
`modelNoMatch` and injection raises. -/
theorem no_targets_matched_raises_witness :
    modelNoMatch.find_and_replace "a" draws0 =
      Except.error (PyErr.valueError
        "Target modules not found in the base model. Please check the target modules and try again.",
        modelNoMatch) :=
  no_targets_matched_raises modelNoMatch "a" cfgR4 draws0 rfl (by decide)

/-! ## C3: the engine-level merge/unmerge broadcast cannot run -/

/-- A model with one registered adapter and one LoRA-capable layer. -/
def modelOneLora : LoraModel :=
  { peft_config := [("task1", cfgR4)]
    modules := [("q", Module.loraLinear sampleLinear)]
    params := [] }

/-- C3 (evaluation): `merge_adapter()` and `unmerge_adapter()` with the
name omitted raise TypeError at the very first LoRA-capable layer — the
engine calls `module.merge(adapter)` / `module.unmerge(adapter)` with an
argument the layer methods do not accept — leaving the model unchanged
instead of merging every registered adapter. -/
theorem merge_adapter_broadcast_raises :
    modelOneLora.merge_adapter none =
      Except.error
        (PyErr.typeError "merge() takes 1 positional argument but 2 were given",
          modelOneLora) ∧
    modelOneLora.unmerge_adapter none =
      Except.error
        (PyErr.typeError "unmerge() takes 1 positional argument but 2 were given",
          modelOneLora) :=
  ⟨rfl, rfl⟩

/-! ## C4: extending an existing LoRA layer with a fresh adapter raises -/

/-- C4 (evaluation): registering a second adapter (`add_adapter` with a
fresh name) on a model whose target module is already a LoRA-capable layer
raises TypeError — the `update_layer` call in `_find_and_replace` omits
the required `r_sum` argument — so the layer is never extended in place:
the error state keeps the registered config but the unchanged module. -/
theorem add_adapter_on_lora_layer_raises :
    modelOneLora.add_adapter "task2" (some cfgR4) draws0 =
      Except.error
        (PyErr.typeError "update_layer() missing 1 required positional argument: r_sum",
          { peft_config := [("task1", cfgR4), ("task2", cfgR4)]
            modules := modelOneLora.modules
            params := [] }) :=
  rfl

/-! ## C5: rank 0 on a dense layer divides by zero -/

/-- `cfgR4` with the rank set to 0. -/
def cfgR0 : LoraConfig := { cfgR4 with r := 0 }

/-- A model with one plain dense module matching `"q"`. -/
def modelPlain : LoraModel :=
  { peft_config := []
    modules := [("q", Module.plainLinear 4 4 (fun i j => (i : ℚ) + j) none)]
    params := [] }

/-- C5 (evaluation): constructing a dense LoRA layer with rank 0 — even
with the constructor's own default `r = 0` — raises ZeroDivisionError,
because `_initialize_adapter` computes `scaling = lora_alpha / r` before
its `r > 0` guard; consequently injection of an `r = 0` config over a
plain dense module raises as well instead of disabling the trainable
path. -/
theorem dense_rank_zero_raises :
    Linear.init "default" 4 4 0 1 0 false 0 false true (fun _ _ => 0) none draws0 =
      Except.error PyErr.zeroDivisionError ∧
    modelPlain.add_adapter "a" (some cfgR0) draws0 =
      Except.error (PyErr.zeroDivisionError,
        { peft_config := [("a", cfgR0)]
          modules := modelPlain.modules
          params := [] }) :=
  ⟨rfl, rfl⟩

/-! ## C6: the weighted combination is never reached -/

/-- A dense LoRA layer holding the two source adapters `"a"` and `"b"`,
both of rank 4. -/
def sampleLinearAB : Linear :=
  { sampleLinear with
    r := fun s => if s = "a" then some 4 else if s = "b" then some 4 else none
    lora_alpha := fun s => if s = "a" then some 8 else if s = "b" then some 8 else none
    scaling := fun s => if s = "a" then some 2 else if s = "b" then some 2 else none
    lora_dropout := fun s => if s = "a" then some id else if s = "b" then some id else none
    lora_A := fun s =>
      if s = "a" then some ⟨4, 2, fun _ _ => 1⟩
      else if s = "b" then some ⟨4, 2, fun _ _ => 2⟩ else none
    lora_B := fun s =>
      if s = "a" then some ⟨2, 4, fun _ _ => 1⟩
      else if s = "b" then some ⟨2, 4, fun _ _ => 2⟩ else none
    loranew_A := fun s =>
      if s = "a" then some ⟨4, 2, fun _ _ => 1⟩
      else if s = "b" then some ⟨4, 2, fun _ _ => 2⟩ else none
    loranew_B := fun s =>
      if s = "a" then some ⟨2, 4, fun _ _ => 0⟩
      else if s = "b" then some ⟨2, 4, fun _ _ => 0⟩ else none }

/-- A model with the two rank-4 source adapters injected on one layer:
exactly the scenario the weighted-combination claim describes. -/
def modelAB : LoraModel :=
  { peft_config := [("a", cfgR4), ("b", cfgR4)]
    modules := [("q", Module.loraLinear sampleLinearAB)]
    params := [] }

/-- The aliased config after `lora_alpha` is set to the shared rank. -/
def cfgWeighted : LoraConfig := { cfgR4 with lora_alpha := (cfgR4.r : ℚ) }

/-- C6 (evaluation): `add_weighted_adapter(["a","b"], [1/2, 1/2], "c")` on
a model whose sources are injected raises TypeError inside its
`_find_and_replace` step (the `update_layer` call missing `r_sum`), after
registering the new config but before the accumulation loop ever runs:
the layers never receive the weighted factor combination. -/
theorem add_weighted_adapter_raises_before_combination :
    modelAB.add_weighted_adapter ["a", "b"] [1/2, 1/2] "c" draws0 =
      Except.error
        (PyErr.typeError "update_layer() missing 1 required positional argument: r_sum",
          { peft_config := [("a", cfgWeighted), ("b", cfgR4), ("c", cfgWeighted)]
            modules := modelAB.modules
            params := [] }) :=
  rfl

/-! ## C2: a freshly constructed layer computes the plain base transform -/

/-- A matrix with all-zero entries maps every vector to zero. -/
theorem PMat.mv_zero_entries (M : PMat) (h : ∀ i j, M.entry i j = 0) (v : Vec) :
    ∀ i, M.mv v i = 0 := by
  intro i
  unfold PMat.mv
  exact Finset.sum_eq_zero fun t _ => by rw [h i t]; ring

/-- Every matrix maps an all-zero vector to zero. -/
theorem PMat.mv_zero_vec (M : PMat) (v : Vec) (h : ∀ t, v t = 0) :
    ∀ i, M.mv v i = 0 := by
  intro i
  unfold PMat.mv
  exact Finset.sum_eq_zero fun t _ => by rw [h t]; ring

/-- When every entry of the resolved adapter's `lora_A` (or the dict
default) and of its `loranew_B` is zero, the two low-rank paths contribute
nothing and `forward` returns the plain affine transform, for every
input. -/
theorem Linear.forward_of_zero_factors (l : Linear) (x : Vec)
    (hdis : l.disable_adapters = false)
    (hA : ∀ i j,
      (dget l.lora_A l.get_active_adapter_name (PMat.zeroM 0 0)).entry i j = 0)
    (hBn : ∀ i j,
      (dget l.loranew_B l.get_active_adapter_name (PMat.zeroM 0 0)).entry i j = 0) :
    (l.forward x).1 = linearF (transpose l.weight l.fan_in_fan_out) l.bias x := by
  unfold Linear.forward Linear.forwardNamed
  set n := l.get_active_adapter_name with hn
  by_cases c1 : (l.lora_A n).isNone
  · simp [c1]
  · simp only [c1, if_neg, hdis, Bool.false_eq_true, if_false]
    by_cases c2 : (0 < dget l.r n 0 && !l.merged) = true
    · simp only [c2, if_true]
      have hzero1 : ∀ (v : Vec) (i : ℕ),
          (dget l.lora_B n (PMat.zeroM 0 0)).mv
            ((dget l.lora_A n (PMat.zeroM 0 0)).mv v) i = 0 :=
        fun v =>
          PMat.mv_zero_vec _ _ (PMat.mv_zero_entries _ hA v)
      have hzero2 : ∀ (v : Vec) (i : ℕ),
          (dget l.loranew_B n (PMat.zeroM 0 0)).mv
            ((dget l.loranew_A n (PMat.zeroM 0 0)).mv v) i = 0 :=
        fun v => PMat.mv_zero_entries _ hBn _
      by_cases c3 : (l.loranew_A n).isSome = true
      · simp only [c3, if_true]
        funext i
        simp [vecAdd, vecSmul, hzero1, hzero2]
      · simp only [c3, Bool.false_eq_true, if_false]
        funext i
        simp [vecAdd, vecSmul, hzero1]
    · simp [c2]

/-- A successfully constructed dense LoRA layer with
`init_lora_weights = True` has adapters enabled and only zero entries
stored in `lora_A` and `loranew_B` (under every key). -/
theorem Linear.dense_init_fresh_state (adapter_name : String)
    (in_features out_features r : ℕ) (lora_alpha lora_dropout : ℚ)
    (fan_in_fan_out : Bool) (r_sum : ℕ) (use_baseline_lora : Bool)
    (baseWeight : ℕ → ℕ → ℚ) (baseBias : Option Vec) (draws : Draws) (l : Linear)
    (hl : Linear.init adapter_name in_features out_features r lora_alpha lora_dropout
        fan_in_fan_out r_sum use_baseline_lora true baseWeight baseBias draws =
      Except.ok l) :
    l.disable_adapters = false ∧
    (∀ s i j, (dget l.lora_A s (PMat.zeroM 0 0)).entry i j = 0) ∧
    (∀ s i j, (dget l.loranew_B s (PMat.zeroM 0 0)).entry i j = 0) := by
  unfold Linear.init Linear.update_layer Linear.initialize_adapter pyDiv
    Linear.reset_lora_parameters at hl
  by_cases hr0 : (r : ℚ) = 0
  · simp [demp, hr0] at hl
  · have hrpos : 0 < r := by
      rcases Nat.eq_zero_or_pos r with h | h
      · exact absurd (by simp [h]) hr0
      · exact h
    simp only [demp, dset, Option.isSome_none, Bool.and_false, Bool.false_eq_true,
      if_false, hr0, hrpos, if_true, eq_self_iff_true, Option.isSome_some,
      Except.ok.injEq] at hl
    subst hl
    refine ⟨rfl, ?_, ?_⟩
    · intro s i j
      unfold dget dset demp PMat.zeroM
      by_cases hs : s = adapter_name <;> simp [hs]
    · intro s i j
      unfold dget dset demp PMat.zeroM
      by_cases hs : s = adapter_name <;> simp [hs]

/-- When every entry of the resolved adapter's `lora_embedding_A` (or the
dict default) is zero, the LoRA lookup path contributes nothing and
`forward` returns the plain embedding lookup. -/
theorem Embedding.forward_of_zero_A (e : Embedding) (ix : ℕ)
    (hdis : e.disable_adapters = false)
    (hA : ∀ i j,
      (dget e.lora_embedding_A e.get_active_adapter_name (PMat.zeroM 0 0)).entry i j = 0) :
    (e.forward ix).1 = embLookup e.weight ix := by
  unfold Embedding.forward Embedding.forwardNamed
  set n := e.get_active_adapter_name with hn
  by_cases c1 : (e.lora_embedding_A n).isNone
  · simp [c1]
  · simp only [c1, if_neg, hdis, Bool.false_eq_true, if_false]
    by_cases c2 : (0 < dget e.r n 0 && !e.merged) = true
    · simp only [c2, if_true]
      funext j
      unfold vecAdd vecSmul PMat.vm embLookup PMat.transposeM
      have : ∀ t, (dget e.lora_embedding_A n (PMat.zeroM 0 0)).entry t ix = 0 :=
        fun t => hA t ix
      simp [this]
    · simp [c2]

/-- A freshly built embedding LoRA layer with `init_lora_weights = True`
has adapters enabled and only zero entries stored in `lora_embedding_A`
(under every key). -/
theorem Embedding.embedding_init_fresh_state (adapter_name : String)
    (num_embeddings embedding_dim r : ℕ) (lora_alpha lora_dropout : ℚ)
    (use_baseline_lora : Bool) (baseWeight : ℕ → ℕ → ℚ) (draws : Draws)
    (e : Embedding)
    (he : Embedding.init adapter_name num_embeddings embedding_dim r lora_alpha
        lora_dropout use_baseline_lora true baseWeight draws = e) :
    e.disable_adapters = false ∧
    (∀ s i j, (dget e.lora_embedding_A s (PMat.zeroM 0 0)).entry i j = 0) := by
  unfold Embedding.init Embedding.update_layer_embedding
    Embedding.reset_lora_parameters at he
  by_cases hr0 : 0 < r
  · simp only [demp, dset, Option.isSome_none, Bool.false_eq_true, if_false, hr0,
      if_true, eq_self_iff_true] at he
    subst he
    refine ⟨rfl, ?_⟩
    intro s i j
    unfold dget dset demp PMat.zeroM
    by_cases hs : s = (if use_baseline_lora then "baseline_lora" else adapter_name) <;>
      simp [hs]
  · simp only [demp, dset, Option.isSome_none, Bool.false_eq_true, if_false,
      hr0] at he
    subst he
    exact ⟨rfl, fun s i j => by unfold dget demp PMat.zeroM; simp⟩

/-- C2: a freshly constructed LoRA layer with `init_lora_weights = True`
(which zero-initializes `lora_A`, `lora_B` and `loranew_B` on dense
layers, and `lora_embedding_A` on embedding layers) computes exactly the
plain base-layer transform on every input: the affine transform through
the (possibly transposed) frozen weight for the dense layer, the plain
table lookup for the embedding layer. -/
theorem fresh_forward_eq_base (adapter_name : String)
    (in_features out_features r : ℕ) (lora_alpha lora_dropout : ℚ)
    (fan_in_fan_out : Bool) (r_sum : ℕ) (use_baseline_lora : Bool)
    (baseWeight : ℕ → ℕ → ℚ) (baseBias : Option Vec) (draws : Draws) (l : Linear)
    (hl : Linear.init adapter_name in_features out_features r lora_alpha lora_dropout
        fan_in_fan_out r_sum use_baseline_lora true baseWeight baseBias draws =
      Except.ok l)
    (x : Vec)
    (ename : String) (num_embeddings embedding_dim re : ℕ) (ealpha edrop : ℚ)
    (eubl : Bool) (eW : ℕ → ℕ → ℚ) (edraws : Draws) (e : Embedding)
    (he : Embedding.init ename num_embeddings embedding_dim re ealpha edrop eubl
        true eW edraws = e)
    (ix : ℕ) :
    (l.forward x).1 = linearF (transpose l.weight l.fan_in_fan_out) l.bias x ∧
    (e.forward ix).1 = embLookup e.weight ix := by
  obtain ⟨hd, hA, hBn⟩ := Linear.dense_init_fresh_state adapter_name in_features out_features
    r lora_alpha lora_dropout fan_in_fan_out r_sum use_baseline_lora baseWeight
    baseBias draws l hl
  obtain ⟨hed, heA⟩ := Embedding.embedding_init_fresh_state ename num_embeddings embedding_dim
    re ealpha edrop eubl eW edraws e he
  exact ⟨Linear.forward_of_zero_factors l x hd (hA _) (hBn _),
    Embedding.forward_of_zero_A e ix hed (heA _)⟩

/-- A freshly constructed dense LoRA layer (rank 1, `r_sum = 3`,
zero-initializing weights). -/
def freshLinear : Linear :=
  ((Linear.init "a" 2 2 1 2 0 false 3 false true (fun i j => (i : ℚ) * 2 + j) none
      draws0).toOption).getD sampleLinear

/-- A freshly constructed embedding LoRA layer (rank 1). -/
def freshEmbedding : Embedding :=
  Embedding.init "a" 3 2 1 2 0 false true (fun i j => (i : ℚ) + j) draws0

/-- Witness for C2 at the two fresh layers, on a concrete input. -/
theorem fresh_forward_eq_base_witness :
    (freshLinear.forward (fun _ => 1)).1 =
      linearF (transpose freshLinear.weight freshLinear.fan_in_fan_out)
        freshLinear.bias (fun _ => 1) ∧
    (freshEmbedding.forward 0).1 = embLookup freshEmbedding.weight 0 :=
  fresh_forward_eq_base "a" 2 2 1 2 0 false 3 false (fun i j => (i : ℚ) * 2 + j) none
    draws0 freshLinear rfl (fun _ => 1) "a" 3 2 1 2 0 false
    (fun i j => (i : ℚ) + j) draws0 freshEmbedding rfl 0

end Lora
